import Mathlib

/-
Verification of the ledger-orchestration core of the rhein-finance backend
(src/src/daml/daml.service.ts). Monetary amounts, which the service stores as
decimal strings and reads with parseFloat, are embedded as exact rationals.
Network effects (ledger command submission, escrow wallet calls, the OAuth
token exchange) are embedded by passing the response of each external call as
an explicit argument and recording the emitted calls in a trace.
-/

namespace Rhein

/-- Custom fungible-asset record, payload of the Holding:AssetHolding template
(src/src/daml/interfaces/index.ts, AssetHolding). -/
structure AssetHolding where
  contractId : String
  issuer : String
  owner : String
  custodian : String
  assetType : String
  amount : ℚ
deriving DecidableEq, Repr

/-- Locked variant of the asset record (interfaces/index.ts, LockedAssetHolding). -/
structure LockedAssetHolding where
  contractId : String
  issuer : String
  owner : String
  custodian : String
  assetType : String
  amount : ℚ
  lockReason : String
  releaseTo : String
deriving DecidableEq, Repr

/-- Amount structure of a native-coin holding (interfaces/index.ts, AmuletAmount);
createdAt round and ratePerRound are carried along but unused by the service,
which approximates the balance by initialAmount. -/
structure AmuletAmount where
  initialAmount : ℚ
  createdAtRound : String
  ratePerRound : String
deriving DecidableEq, Repr

/-- Native-coin holding (interfaces/index.ts, Amulet). -/
structure Amulet where
  contractId : String
  dso : String
  owner : String
  amount : AmuletAmount
deriving DecidableEq, Repr

/-- Locked native-coin holding (interfaces/index.ts, LockedAmulet); the nested
amulet payload is flattened. -/
structure LockedAmulet where
  contractId : String
  amuletDso : String
  amuletOwner : String
  amuletAmount : AmuletAmount
  lockHolders : List String
  lockExpiresAt : String
deriving DecidableEq, Repr

/-- Active loan payload (interfaces/index.ts, ActiveLoanHybrid). -/
structure ActiveLoan where
  contractId : String
  borrower : String
  lender : String
  ccCollateralReference : String
  principal : ℚ
  collateralAmount : ℚ
  interestRate : String
  maturityDate : String
  originationDate : String
  ccPrice : String
  stablecoinType : String
deriving DecidableEq, Repr

/-- calculateAmuletAmount (daml.service.ts 458-460): the effective native-coin
balance is approximated by the recorded initial amount. -/
def calculateAmuletAmount (amount : AmuletAmount) : ℚ :=
  amount.initialAmount

-- ============================================================================
-- HOLDING SELECTION (lockUSDC / transferUSDC / repayLoan)
-- ============================================================================

/-- The USDC holdings of a party, as filtered at the top of lockUSDC
(daml.service.ts 535-537), transferUSDC (1139-1141) and repayLoan (893-895). -/
def usdcOf (partyId : String) (holdings : List AssetHolding) : List AssetHolding :=
  holdings.filter (fun h => h.assetType == "USDC" && h.owner == partyId)

/-- Sum of the amounts of a list of holdings, as computed for the
insufficient-balance message (daml.service.ts 551, 909, 1155). -/
def sumAmounts (hs : List AssetHolding) : ℚ :=
  (hs.map (fun h => h.amount)).sum

/-- Outcome of the holding-selection phase shared by lockUSDC, transferUSDC and
repayLoan: either an existing holding is used directly, or a covering holding
is chosen for a Split exercise, or the operation fails. -/
inductive AllocDecision where
  | noHoldings
  | useExisting (h : AssetHolding)
  | split (h : AssetHolding)
  | insufficient (needed available : ℚ)
deriving DecidableEq, Repr

/-- Holding selection of lockUSDC (daml.service.ts 534-596) and transferUSDC
(1138-1195), which share this logic verbatim: throw when the party has no USDC
holdings; use the first holding whose amount equals the target; otherwise split
the first holding whose amount covers the target; otherwise fail with the
needed amount and the sum of all holdings as available. -/
def allocateExact (partyId : String) (amount : ℚ) (holdings : List AssetHolding) :
    AllocDecision :=
  if (usdcOf partyId holdings).isEmpty then .noHoldings
  else
    match (usdcOf partyId holdings).find? (fun h => decide (h.amount = amount)) with
    | some h => .useExisting h
    | none =>
      match (usdcOf partyId holdings).find? (fun h => decide (amount ≤ h.amount)) with
      | some h => .split h
      | none => .insufficient amount (sumAmounts (usdcOf partyId holdings))

/-- Holding selection of repayLoan (daml.service.ts 892-936): identical to
allocateExact except that the exact-match test accepts any holding whose amount
is within 0.01 of the repayment amount (line 902). -/
def repayAllocate (partyId : String) (repaymentAmount : ℚ)
    (holdings : List AssetHolding) : AllocDecision :=
  if (usdcOf partyId holdings).isEmpty then .noHoldings
  else
    match (usdcOf partyId holdings).find?
        (fun h => decide (|h.amount - repaymentAmount| < 1/100)) with
    | some h => .useExisting h
    | none =>
      match (usdcOf partyId holdings).find?
          (fun h => decide (repaymentAmount ≤ h.amount)) with
      | some h => .split h
      | none => .insufficient repaymentAmount (sumAmounts (usdcOf partyId holdings))

/-- The in-memory successor holding built after a Split succeeds
(daml.service.ts 572-576): the contract id returned by the exercise with the
original payload and the amount overwritten by the split target. -/
def splitSuccessor (h : AssetHolding) (amount : ℚ) (cid : String) : AssetHolding :=
  { h with contractId := cid, amount := amount }

-- ============================================================================
-- LEDGER-SIDE SPLIT (spec-modelled)
-- ============================================================================

/-- Modelled from the spec: the Split choice of the Holding:AssetHolding DAML
template is ledger-side smart-contract code that is not part of this
repository; the service only exercises it (daml.service.ts 556-564). Per the
spec (sections 3 and 8), splitting a holding of amount A at a target X with
0 < X < A archives the holding and creates two successor holdings, the exact
one carrying amount X and the remainder carrying A - X, with exact decimal
arithmetic and no rounding. -/
def splitHolding (h : AssetHolding) (splitAmount : ℚ) :
    Option (AssetHolding × AssetHolding) :=
  if 0 < splitAmount ∧ splitAmount < h.amount then
    some ({ h with contractId := h.contractId ++ ":exact", amount := splitAmount },
          { h with contractId := h.contractId ++ ":remainder",
                   amount := h.amount - splitAmount })
  else
    none

-- ============================================================================
-- TOKEN BALANCES (getTokenBalances)
-- ============================================================================

/-- Derived balance record (interfaces/index.ts, TokenBalance). -/
structure TokenBalance where
  assetType : String
  available : ℚ
  locked : ℚ
  borrowed : ℚ
  total : ℚ
deriving DecidableEq, Repr

/-- getTokenBalances (daml.service.ts 476-522), with the results of the five
ledger queries passed as arguments: per asset type the unlocked holdings give
available, the locked holdings give locked, active loans where the party is the
borrower give the USDC borrowed amount, and total is available plus locked;
the native-coin borrowed amount is fixed at zero. -/
def getTokenBalances (partyId : String) (holdings : List AssetHolding)
    (lockedHoldings : List LockedAssetHolding) (activeLoans : List ActiveLoan)
    (amulets : List Amulet) (lockedAmulets : List LockedAmulet) :
    TokenBalance × TokenBalance :=
  let usdcAvailable :=
    ((holdings.filter (fun h => h.assetType == "USDC" && h.owner == partyId)).map
      (fun h => h.amount)).sum
  let usdcLocked :=
    ((lockedHoldings.filter (fun h => h.assetType == "USDC" && h.owner == partyId)).map
      (fun h => h.amount)).sum
  let usdcBorrowed :=
    ((activeLoans.filter (fun l => l.borrower == partyId)).map
      (fun l => l.principal)).sum
  let ccAvailable := (amulets.map (fun a => calculateAmuletAmount a.amount)).sum
  let ccLocked := (lockedAmulets.map (fun a => calculateAmuletAmount a.amuletAmount)).sum
  (⟨"USDC", usdcAvailable, usdcLocked, usdcBorrowed, usdcAvailable + usdcLocked⟩,
   ⟨"CC", ccAvailable, ccLocked, 0, ccAvailable + ccLocked⟩)

-- ============================================================================
-- LOAN OFFER CREATION (createLoanOffer)
-- ============================================================================

/-- The two sides of a loan offer (interfaces/index.ts, LoanOfferHybrid.offerType). -/
inductive OfferType where
  | BorrowerBid
  | LenderAsk
deriving DecidableEq, Repr

/-- The request body accepted by createLoanOffer (daml.service.ts 770-776). -/
structure OfferRequest where
  offerType : OfferType
  loanAmount : String
  collateralAmount : String
  interestRate : String
  maturityDate : String
deriving DecidableEq, Repr

/-- Service configuration fields used by createLoanOffer
(daml.service.ts 40-43). -/
structure Config where
  adminPartyId : String
  defaultLtv : ℚ
  ccPrice : ℚ
deriving DecidableEq, Repr

/-- Create-argument of the LoanOfferHybrid create command
(daml.service.ts 809-824, matching interfaces/index.ts LoanOfferHybrid). -/
structure LoanOfferPayload where
  initiator : String
  counterparty : Option String
  offerType : OfferType
  lockedCCCollateral : Option String
  lockedUSDCPrincipal : Option String
  loanAmount : String
  collateralAmount : String
  interestRate : String
  maturityDate : String
  ltvRatio : ℚ
  ccPrice : ℚ
  stablecoinType : String
  createdAt : String
  observers : List String
deriving DecidableEq, Repr

/-- createLoanOffer (daml.service.ts 768-827): the payload of the submitted
create command. A BorrowerBid first locks native-coin collateral and records
the resulting escrow offer id as lockedCCCollateral; a LenderAsk first locks
the USDC principal and records the locked-holding id as lockedUSDCPrincipal.
The successful lock call is abstracted by its returned contract id lockedCid.
The payload carries the configured ltv and native-coin price defaults and the
current date as createdAt. -/
def createLoanOfferPayload (cfg : Config) (partyId today : String)
    (offer : OfferRequest) (lockedCid : String) : LoanOfferPayload :=
  let lockFields : Option String × Option String :=
    match offer.offerType with
    | .BorrowerBid => (some lockedCid, none)
    | .LenderAsk => (none, some lockedCid)
  { initiator := partyId
    counterparty := none
    offerType := offer.offerType
    lockedCCCollateral := lockFields.1
    lockedUSDCPrincipal := lockFields.2
    loanAmount := offer.loanAmount
    collateralAmount := offer.collateralAmount
    interestRate := offer.interestRate
    maturityDate := offer.maturityDate
    ltvRatio := cfg.defaultLtv
    ccPrice := cfg.ccPrice
    stablecoinType := "USDC"
    createdAt := today
    observers := [cfg.adminPartyId] }

-- ============================================================================
-- LOAN LIFECYCLE (repayLoan / defaultLoan)
-- ============================================================================

/-- External calls emitted by a loan-lifecycle operation: a ledger exercise
submission, or an escrow wallet-API call on a transfer offer. -/
inductive LedgerCall where
  | exercise (templateId contractId choice : String) (actAs : List String)
      (args : List String)
  | escrowAccept (transferOfferCid : String)
  | escrowWithdraw (transferOfferCid : String)
deriving DecidableEq, Repr

/-- Errors raised by the service operations (the thrown Error messages of
daml.service.ts). -/
inductive DamlError where
  | noHoldings (partyId : String)
  | insufficientBalance (needed available : ℚ)
  | loanNotFound (loanContractId : String)
  | notMatured (maturityDate claimDate : String)
  | splitFailed
  | ledgerCommand (status : Nat) (body : String)
deriving Repr

/-- Outcome of a loan-lifecycle operation: the value returned or error raised,
the external calls made, and the errors that were caught and logged rather
than raised. -/
structure OpOutcome where
  result : Except DamlError String
  calls : List LedgerCall
  loggedErrors : List String
deriving Repr

/-- Continuation of repayLoan after a repayment holding has been selected
(daml.service.ts 938-964): submit the RepayHybrid exercise with borrower and
lender as authorizers; on success, if the loan carries a native-coin collateral
reference, attempt the escrow withdraw, catching and logging any failure
without altering the returned repay result. -/
def repayLoanSubmit (partyId today : String) (loan : ActiveLoan)
    (repaymentHoldingCid : String) (repaySubmit : Except (Nat × String) String)
    (unlockResult : Except String Unit) (priorCalls : List LedgerCall) : OpOutcome :=
  let repayCall := LedgerCall.exercise "ActiveLoanHybrid:ActiveLoanHybrid"
    loan.contractId "RepayHybrid" [partyId, loan.lender] [today, repaymentHoldingCid]
  match repaySubmit with
  | .error (s, b) => ⟨.error (.ledgerCommand s b), priorCalls ++ [repayCall], []⟩
  | .ok r =>
    if loan.ccCollateralReference ≠ "" then
      let withdrawCall := LedgerCall.escrowWithdraw loan.ccCollateralReference
      match unlockResult with
      | .ok _ => ⟨.ok r, priorCalls ++ [repayCall, withdrawCall], []⟩
      | .error e => ⟨.ok r, priorCalls ++ [repayCall, withdrawCall], [e]⟩
    else
      ⟨.ok r, priorCalls ++ [repayCall], []⟩

/-- repayLoan (daml.service.ts 878-965): look up the active loan, select or
split a USDC holding for the repayment amount, submit the RepayHybrid
exercise, then best-effort unlock the native-coin collateral. The response to
the Split submission is abstracted by the extracted contract id splitCid (none
when no contract id could be extracted), the ledger response to the repay
submission by repaySubmit, and the escrow withdraw response by unlockResult. -/
def repayLoan (partyId loanContractId : String) (repaymentAmount : ℚ)
    (loans : List ActiveLoan) (holdings : List AssetHolding) (today : String)
    (splitCid : Option String) (repaySubmit : Except (Nat × String) String)
    (unlockResult : Except String Unit) : OpOutcome :=
  match loans.find? (fun l => l.contractId == loanContractId) with
  | none => ⟨.error (.loanNotFound loanContractId), [], []⟩
  | some loan =>
    match repayAllocate partyId repaymentAmount holdings with
    | .noHoldings => ⟨.error (.noHoldings partyId), [], []⟩
    | .insufficient needed available =>
      ⟨.error (.insufficientBalance needed available), [], []⟩
    | .useExisting h =>
      repayLoanSubmit partyId today loan h.contractId repaySubmit unlockResult []
    | .split h =>
      let splitCall := LedgerCall.exercise "Holding:AssetHolding" h.contractId
        "Split" [partyId] [toString repaymentAmount]
      match splitCid with
      | none => ⟨.error .splitFailed, [splitCall], []⟩
      | some cid =>
        repayLoanSubmit partyId today loan cid repaySubmit unlockResult [splitCall]

/-- Lexicographic order on character lists, auxiliary to jsStrLt. -/
def charListLt : List Char → List Char → Bool
  | [], [] => false
  | [], _ :: _ => true
  | _ :: _, [] => false
  | a :: as, b :: bs => if a < b then true else if b < a then false else charListLt as bs

/-- The JavaScript relational operator on strings, used by defaultLoan to
compare ISO date strings (daml.service.ts 980): lexicographic comparison of
the code units, which for these ASCII strings is plain lexicographic
character order. -/
def jsStrLt (a b : String) : Bool :=
  charListLt a.data b.data

/-- defaultLoan (daml.service.ts 967-1011): look up the active loan, reject
when the claim date (the override when given, otherwise today) precedes the
maturity date, otherwise submit the ClaimDefaultHybrid exercise with lender and
borrower as authorizers; on success, if the loan carries a native-coin
collateral reference, attempt the escrow accept for the lender, catching and
logging any failure without altering the returned default result. -/
def defaultLoan (partyId loanContractId : String) (overrideClaimDate : Option String)
    (today : String) (loans : List ActiveLoan)
    (submitResult : Except (Nat × String) String)
    (escrowClaim : Except String Unit) : OpOutcome :=
  match loans.find? (fun l => l.contractId == loanContractId) with
  | none => ⟨.error (.loanNotFound loanContractId), [], []⟩
  | some loan =>
    let claimDate := overrideClaimDate.getD today
    if jsStrLt claimDate loan.maturityDate then
      ⟨.error (.notMatured loan.maturityDate claimDate), [], []⟩
    else
      let defaultCall := LedgerCall.exercise "ActiveLoanHybrid:ActiveLoanHybrid"
        loanContractId "ClaimDefaultHybrid" [partyId, loan.borrower] [claimDate]
      match submitResult with
      | .error (s, b) => ⟨.error (.ledgerCommand s b), [defaultCall], []⟩
      | .ok r =>
        if loan.ccCollateralReference ≠ "" then
          let acceptCall := LedgerCall.escrowAccept loan.ccCollateralReference
          match escrowClaim with
          | .ok _ => ⟨.ok r, [defaultCall, acceptCall], []⟩
          | .error e => ⟨.ok r, [defaultCall, acceptCall], [e]⟩
        else
          ⟨.ok r, [defaultCall], []⟩

-- ============================================================================
-- OAUTH TOKEN CACHE (getAuth0Token)
-- ============================================================================

/-- A cached OAuth token entry (daml.service.ts 35): the token value as cached
from the response body, which the code never checks for presence, and the
expiry instant in milliseconds. -/
structure CachedToken where
  token : Option String
  expiresAt : Int
deriving DecidableEq, Repr

/-- The token cache, a map keyed by audience (daml.service.ts 35), embedded as
an association list. -/
abbrev TokenCache := List (String × CachedToken)

/-- The relevant parts of the token-endpoint HTTP response
(daml.service.ts 83-97): success flag and status of the exchange, the raw body
text used in the error message, and the access_token and expires_in fields of
the parsed body. -/
structure TokenResponse where
  ok : Bool
  status : Nat
  body : String
  accessToken : Option String
  expiresIn : Int
deriving DecidableEq, Repr

/-- The auth-token error thrown on a non-success exchange
(daml.service.ts 89-92). -/
inductive AuthError where
  | tokenRequestFailed (status : Nat) (body : String)
deriving DecidableEq, Repr

/-- Result of one getAuth0Token call: the returned token or raised error, the
cache afterwards, and whether a token exchange was performed. -/
structure TokenResult where
  result : Except AuthError (Option String)
  cache : TokenCache
  exchanged : Bool
deriving Repr

/-- Map.set on the association-list cache: overwrite the entry for the
audience or append a new one. -/
def setCache : TokenCache → String → CachedToken → TokenCache
  | [], audience, entry => [(audience, entry)]
  | (a, c) :: rest, audience, entry =>
    if a == audience then (audience, entry) :: rest
    else (a, c) :: setCache rest audience entry

/-- The exchange-and-cache path of getAuth0Token (daml.service.ts 76-99),
taken on a cache miss or an expired entry: raise on a non-success response;
otherwise cache the access_token field as-is, with expiry 60 seconds before
the declared expires_in, and return it. -/
def fetchAndCacheToken (cache : TokenCache) (audience : String) (now : Int)
    (resp : TokenResponse) : TokenResult :=
  if resp.ok then
    let token := resp.accessToken
    let expiresAt := now + (resp.expiresIn - 60) * 1000
    ⟨.ok token, setCache cache audience ⟨token, expiresAt⟩, true⟩
  else
    ⟨.error (.tokenRequestFailed resp.status resp.body), cache, true⟩

/-- getAuth0Token (daml.service.ts 70-100): return the cached token when the
cached expiry is still in the future, otherwise perform the exchange. The
response the exchange would receive is passed as resp. -/
def getAuth0Token (cache : TokenCache) (audience : String) (now : Int)
    (resp : TokenResponse) : TokenResult :=
  match cache.lookup audience with
  | some cached =>
    if cached.expiresAt > now then ⟨.ok cached.token, cache, false⟩
    else fetchAndCacheToken cache audience now resp
  | none => fetchAndCacheToken cache audience now resp

-- ============================================================================
-- TRANSACTION STREAM (getTransactionStream / getTransactionById /
-- getContractHistory)
-- ============================================================================

/-- The three normalized event kinds (interfaces/index.ts,
TransactionEvent.eventType). -/
inductive EventType where
  | created
  | archived
  | exercised
deriving DecidableEq, Repr

/-- Wire-level created-event data as read by the decoder
(daml.service.ts 1078-1085): the payload may arrive under createArgument or
createArguments, and eventId may be absent. Opaque JSON values are embedded as
strings. -/
structure CreatedEventData where
  contractId : String
  templateId : String
  eventId : Option String
  createArgument : Option String
  createArguments : Option String
deriving DecidableEq, Repr

/-- Wire-level exercised-event data (daml.service.ts 1087-1095). -/
structure ExercisedEventData where
  contractId : String
  templateId : String
  eventId : Option String
  choice : Option String
  choiceArgument : Option String
deriving DecidableEq, Repr

/-- Wire-level archived-event data (daml.service.ts 1097-1103). -/
structure ArchivedEventData where
  contractId : String
  templateId : String
  eventId : Option String
deriving DecidableEq, Repr

/-- A raw event of an update, before normalization (daml.service.ts
1073-1076): each discriminator pair (CreatedEvent or created, and so on) is
merged into one optional field, plus the bare fields read by the fallback arm
(1105-1111). -/
structure RawEvent where
  createdEvent : Option CreatedEventData
  exercisedEvent : Option ExercisedEventData
  archivedEvent : Option ArchivedEventData
  contractId : Option String
  templateId : Option String
  eventId : Option String
  payload : Option String
deriving DecidableEq, Repr

/-- Normalized event (interfaces/index.ts, TransactionEvent). -/
structure TransactionEvent where
  eventType : EventType
  contractId : String
  templateId : String
  eventId : String
  payload : Option String
  choice : Option String
  argument : Option String
deriving DecidableEq, Repr

/-- Event normalization of getTransactionStream (daml.service.ts 1073-1112):
the created wrapper wins over exercised, which wins over archived; an event
matching none of the three wrappers falls back to a created event built from
the bare fields. -/
def normalizeEvent (e : RawEvent) : TransactionEvent :=
  match e.createdEvent with
  | some c =>
    ⟨.created, c.contractId, c.templateId, c.eventId.getD "",
     c.createArgument.or c.createArguments, none, none⟩
  | none =>
    match e.exercisedEvent with
    | some x =>
      ⟨.exercised, x.contractId, x.templateId, x.eventId.getD "",
       none, x.choice, x.choiceArgument⟩
    | none =>
      match e.archivedEvent with
      | some a => ⟨.archived, a.contractId, a.templateId, a.eventId.getD "", none, none, none⟩
      | none =>
        ⟨.created, e.contractId.getD "", e.templateId.getD "", e.eventId.getD "",
         e.payload, none, none⟩

/-- A raw transaction of the update stream (daml.service.ts 1066-1073): the
identifier may arrive as updateId or transactionId. -/
structure RawTransaction where
  updateId : Option String
  transactionId : Option String
  effectiveAt : String
  offset : Int
  events : List RawEvent
deriving DecidableEq, Repr

/-- One parsed item of the update-stream response body; the nesting variants
probed in order at daml.service.ts 1066 (update.Transaction.value,
update.transaction.value, update.Transaction, update.transaction, transaction,
or the bare object). -/
inductive RawItem where
  | updateTransactionTaggedValue (tx : RawTransaction)
  | updateTransactionLowerValue (tx : RawTransaction)
  | updateTransactionTagged (tx : RawTransaction)
  | updateTransactionLower (tx : RawTransaction)
  | transactionField (tx : RawTransaction)
  | bare (tx : RawTransaction)
deriving DecidableEq, Repr

/-- The fallback chain of daml.service.ts 1066: every nesting variant yields
its transaction object. -/
def extractTransaction : RawItem → RawTransaction
  | .updateTransactionTaggedValue tx => tx
  | .updateTransactionLowerValue tx => tx
  | .updateTransactionTagged tx => tx
  | .updateTransactionLower tx => tx
  | .transactionField tx => tx
  | .bare tx => tx

/-- Normalized transaction (interfaces/index.ts, Transaction). -/
structure Transaction where
  transactionId : String
  effectiveAt : String
  offset : String
  events : List TransactionEvent
deriving DecidableEq, Repr

/-- Decoding of one raw transaction (daml.service.ts 1067-1113): skip it when
both identifier fields are absent, otherwise keep the first identifier
present, stringify the offset and normalize every event. -/
def decodeTransaction (tx : RawTransaction) : Option Transaction :=
  match tx.updateId.or tx.transactionId with
  | none => none
  | some txId =>
    some ⟨txId, tx.effectiveAt, toString tx.offset, tx.events.map normalizeEvent⟩

/-- The beginExclusive field of the update-stream request body
(daml.service.ts 1019): the parsed fromOffset when given, 0 otherwise. -/
def buildBeginExclusive (fromOffset : Option Int) : Int :=
  fromOffset.getD 0

/-- getTransactionStream (daml.service.ts 1017-1117), with the parsed response
items passed as argument: decode each item and return the first 50 decoded
transactions in stream order. -/
def getTransactionStream (items : List RawItem) : List Transaction :=
  (((items.map extractTransaction).filterMap decodeTransaction)).take 50

/-- getTransactionById (daml.service.ts 1119-1122): filter the default stream
window client-side by transaction id. -/
def getTransactionById (items : List RawItem) (transactionId : String) :
    Option Transaction :=
  (getTransactionStream items).find? (fun tx => tx.transactionId == transactionId)

/-- getContractHistory (daml.service.ts 1124-1127): filter the default stream
window client-side to transactions touching the contract. -/
def getContractHistory (items : List RawItem) (contractId : String) :
    List Transaction :=
  (getTransactionStream items).filter
    (fun tx => tx.events.any (fun e => e.contractId == contractId))

-- ============================================================================
-- GENERAL LEMMAS
-- ============================================================================

/-- A successful find? satisfies the predicate, and everything before the hit
fails it. -/
theorem find?_decomposition {α : Type} (p : α → Bool) (l : List α) (a : α)
    (h : l.find? p = some a) :
    p a = true ∧ ∃ l₁ l₂, l = l₁ ++ a :: l₂ ∧ ∀ x ∈ l₁, p x = false := by
  induction l with
  | nil => simp at h
  | cons b t ih =>
    by_cases hb : p b = true
    · rw [List.find?_cons_of_pos _ hb] at h
      obtain rfl : b = a := by injection h
      exact ⟨hb, [], t, rfl, by simp⟩
    · rw [List.find?_cons_of_neg _ hb] at h
      obtain ⟨hpa, l₁, l₂, rfl, hl₁⟩ := ih h
      refine ⟨hpa, b :: l₁, l₂, rfl, ?_⟩
      intro x hx
      rcases List.mem_cons.mp hx with rfl | hx
      · exact Bool.eq_false_iff.mpr hb
      · exact hl₁ x hx

/-- Looking up the audience just written by setCache yields the new entry. -/
theorem lookup_setCache (cache : TokenCache) (audience : String)
    (entry : CachedToken) :
    (setCache cache audience entry).lookup audience = some entry := by
  induction cache with
  | nil => simp [setCache, List.lookup]
  | cons hd t ih =>
    obtain ⟨a, c⟩ := hd
    by_cases ha : (a == audience) = true
    · simp [setCache, ha, List.lookup]
    · have hne : audience ≠ a := fun e => ha (by simp [e])
      simp [setCache, ha, List.lookup, ih, beq_eq_false_iff_ne.mpr hne]

-- ============================================================================
-- C1: exact-amount allocation in lockUSDC / transferUSDC
-- ============================================================================

/-- C1 (corrected): the holding selection of lockUSDC and transferUSDC uses an
existing holding exactly when its amount equals the target (and one is
returned whenever one exists); otherwise it splits the FIRST holding in query
order whose amount covers the target, not the smallest such holding, and the
exact-amount successor built from the split carries the target amount; when no
single holding covers the target it fails with the needed amount and the sum
of all the USDC holdings as available. -/
theorem C1_exact_allocation (partyId : String) (amount : ℚ)
    (holdings : List AssetHolding) :
    (∀ h, allocateExact partyId amount holdings = .useExisting h →
      h ∈ usdcOf partyId holdings ∧ h.amount = amount) ∧
    (∀ h₀ ∈ usdcOf partyId holdings, h₀.amount = amount →
      ∃ h, allocateExact partyId amount holdings = .useExisting h ∧
        h.amount = amount) ∧
    (∀ h, allocateExact partyId amount holdings = .split h →
      h ∈ usdcOf partyId holdings ∧ amount ≤ h.amount ∧
      (∀ h' ∈ usdcOf partyId holdings, h'.amount ≠ amount) ∧
      (∃ l₁ l₂, usdcOf partyId holdings = l₁ ++ h :: l₂ ∧
        ∀ h' ∈ l₁, h'.amount < amount) ∧
      (∀ cid, (splitSuccessor h amount cid).amount = amount)) ∧
    (∀ needed available,
      allocateExact partyId amount holdings = .insufficient needed available →
      needed = amount ∧ available = sumAmounts (usdcOf partyId holdings) ∧
      ∀ h ∈ usdcOf partyId holdings, h.amount < amount) := by
  by_cases hemp : (usdcOf partyId holdings).isEmpty = true
  · have hnil : usdcOf partyId holdings = [] := List.isEmpty_iff.mp hemp
    refine ⟨?_, ?_, ?_, ?_⟩ <;> simp [allocateExact, hemp, hnil]
  · rcases hfe : (usdcOf partyId holdings).find?
        (fun h => decide (h.amount = amount)) with _ | h
    · rcases hge : (usdcOf partyId holdings).find?
          (fun h => decide (amount ≤ h.amount)) with _ | h
      · -- insufficient balance
        have hall : ∀ h ∈ usdcOf partyId holdings, h.amount < amount := by
          intro h hm
          have := List.find?_eq_none.mp hge h hm
          simpa using lt_of_not_le (by simpa using this)
        refine ⟨?_, ?_, ?_, ?_⟩ <;> simp [allocateExact, hemp, hfe, hge]
        · intro h₀ hm heq
          exact absurd heq (by simpa using List.find?_eq_none.mp hfe h₀ hm)
        · exact hall
      · -- split path
        obtain ⟨hp, l₁, l₂, hdec, hl₁⟩ := find?_decomposition _ _ _ hge
        refine ⟨?_, ?_, ?_, ?_⟩ <;> simp [allocateExact, hemp, hfe, hge]
        · intro h₀ hm heq
          exact absurd heq (by simpa using List.find?_eq_none.mp hfe h₀ hm)
        · refine ⟨List.mem_of_find?_eq_some hge, by simpa using hp, ?_, ?_, ?_⟩
          · intro h' hm
            simpa using List.find?_eq_none.mp hfe h' hm
          · refine ⟨l₁, ⟨l₂, hdec⟩, ?_⟩
            intro h' hm
            have := hl₁ h' hm
            simpa using lt_of_not_le (by simpa using this)
          · intro cid
            rfl
    · -- exact match
      have hp : h.amount = amount := by simpa using List.find?_some hfe
      refine ⟨?_, ?_, ?_, ?_⟩ <;> simp [allocateExact, hemp, hfe]
      · exact ⟨List.mem_of_find?_eq_some hfe, hp⟩
      · intro h₀ hm heq
        exact hp

/-- First USDC holding of the C1 counterexample, amount 300. -/
def c1HoldingLarge : AssetHolding :=
  ⟨"cid-large", "issuer", "alice", "custodian", "USDC", 300⟩

/-- Second USDC holding of the C1 counterexample, amount 200. -/
def c1HoldingSmall : AssetHolding :=
  ⟨"cid-small", "issuer", "alice", "custodian", "USDC", 200⟩

/-- C1 counterexample: with unlocked USDC holdings of 300 then 200 and a
target of 150, the selection splits the 300 holding, although the 200 holding
also covers the target and is strictly smaller; the code therefore does not
select the smallest sufficient holding as the claim states. -/
theorem C1_counterexample :
    allocateExact "alice" 150 [c1HoldingLarge, c1HoldingSmall]
      = .split c1HoldingLarge ∧
    c1HoldingSmall ∈ usdcOf "alice" [c1HoldingLarge, c1HoldingSmall] ∧
    (150 : ℚ) ≤ c1HoldingSmall.amount ∧
    c1HoldingSmall.amount < c1HoldingLarge.amount := by
  decide

/-- USDC holding of the C1 witness, amount 500. -/
def c1WitnessHolding : AssetHolding :=
  ⟨"cid-exact", "issuer", "alice", "custodian", "USDC", 500⟩

/-- C1 witness: the exact-match case of the allocation at a concrete input. -/
theorem C1_witness :
    c1WitnessHolding ∈ usdcOf "alice" [c1WitnessHolding] ∧
    c1WitnessHolding.amount = 500 :=
  (C1_exact_allocation "alice" 500 [c1WitnessHolding]).1 c1WitnessHolding (by decide)

-- ============================================================================
-- C2: split conservation
-- ============================================================================

/-- C2: splitting a holding of amount A at a target X with 0 < X < A yields
exactly two successor holdings whose amounts sum exactly to A, the
exact-amount successor carrying X and the remainder A - X. -/
theorem C2_split_conservation (h : AssetHolding) (x : ℚ) (h1 : 0 < x)
    (h2 : x < h.amount) :
    ∃ e r, splitHolding h x = some (e, r) ∧ e.amount + r.amount = h.amount ∧
      e.amount = x ∧ r.amount = h.amount - x := by
  refine ⟨{ h with contractId := h.contractId ++ ":exact", amount := x },
          { h with contractId := h.contractId ++ ":remainder",
                   amount := h.amount - x }, ?_, by ring, rfl, rfl⟩
  unfold splitHolding
  rw [if_pos ⟨h1, h2⟩]

/-- Holding of the C2 witness, amount 500. -/
def c2Holding : AssetHolding :=
  ⟨"cid-c2", "issuer", "alice", "custodian", "USDC", 500⟩

/-- C2 witness: the split conservation at a concrete holding of 500 split
at 200. -/
theorem C2_witness :
    0 < (200 : ℚ) ∧ (200 : ℚ) < c2Holding.amount ∧
    ∃ e r, splitHolding c2Holding 200 = some (e, r) ∧
      e.amount + r.amount = c2Holding.amount ∧ e.amount = 200 ∧
      r.amount = c2Holding.amount - 200 :=
  ⟨by decide, by decide, C2_split_conservation c2Holding 200 (by decide) (by decide)⟩

-- ============================================================================
-- C3: token balance invariants
-- ============================================================================

/-- C3: in every balance snapshot, available plus locked equals total for both
asset types, the native-coin borrowed amount is zero, and the USDC borrowed
amount is the sum of the principals of the active loans whose borrower is the
party. -/
theorem C3_balance_invariant (partyId : String) (holdings : List AssetHolding)
    (lockedHoldings : List LockedAssetHolding) (activeLoans : List ActiveLoan)
    (amulets : List Amulet) (lockedAmulets : List LockedAmulet) :
    (getTokenBalances partyId holdings lockedHoldings activeLoans amulets
        lockedAmulets).1.available
      + (getTokenBalances partyId holdings lockedHoldings activeLoans amulets
        lockedAmulets).1.locked
      = (getTokenBalances partyId holdings lockedHoldings activeLoans amulets
        lockedAmulets).1.total ∧
    (getTokenBalances partyId holdings lockedHoldings activeLoans amulets
        lockedAmulets).2.available
      + (getTokenBalances partyId holdings lockedHoldings activeLoans amulets
        lockedAmulets).2.locked
      = (getTokenBalances partyId holdings lockedHoldings activeLoans amulets
        lockedAmulets).2.total ∧
    (getTokenBalances partyId holdings lockedHoldings activeLoans amulets
        lockedAmulets).2.borrowed = 0 ∧
    (getTokenBalances partyId holdings lockedHoldings activeLoans amulets
        lockedAmulets).1.borrowed
      = ((activeLoans.filter (fun l => l.borrower == partyId)).map
        (fun l => l.principal)).sum := by
  refine ⟨?_, ?_, ?_, ?_⟩ <;> simp [getTokenBalances]

-- ============================================================================
-- C4: loan offer lock fields
-- ============================================================================

/-- C4: the payload of the create command submitted by createLoanOffer
populates exactly one lock field, keyed by the offer type, and carries the
configured default ltv ratio and native-coin price and the current date as
createdAt. -/
theorem C4_offer_lock_fields (cfg : Config) (partyId today lockedCid : String)
    (offer : OfferRequest) :
    (offer.offerType = .BorrowerBid →
      (createLoanOfferPayload cfg partyId today offer lockedCid).lockedCCCollateral
          = some lockedCid ∧
      (createLoanOfferPayload cfg partyId today offer lockedCid).lockedUSDCPrincipal
          = none) ∧
    (offer.offerType = .LenderAsk →
      (createLoanOfferPayload cfg partyId today offer lockedCid).lockedUSDCPrincipal
          = some lockedCid ∧
      (createLoanOfferPayload cfg partyId today offer lockedCid).lockedCCCollateral
          = none) ∧
    ((createLoanOfferPayload cfg partyId today offer lockedCid).lockedCCCollateral.isSome
      ↔ (createLoanOfferPayload cfg partyId today offer lockedCid).lockedUSDCPrincipal
          = none) ∧
    (createLoanOfferPayload cfg partyId today offer lockedCid).ltvRatio
        = cfg.defaultLtv ∧
    (createLoanOfferPayload cfg partyId today offer lockedCid).ccPrice = cfg.ccPrice ∧
    (createLoanOfferPayload cfg partyId today offer lockedCid).createdAt = today := by
  rcases offer with ⟨ot, la, ca, ir, md⟩
  cases ot <;> simp [createLoanOfferPayload]

/-- Offer request of the C4 witness, a borrower bid. -/
def c4Offer : OfferRequest := ⟨.BorrowerBid, "1000", "5000", "5.5", "2026-06-30"⟩

/-- Configuration of the C4 witness. -/
def c4Config : Config := ⟨"admin", 1/2, 1/8⟩

/-- C4 witness: the borrower-bid case at a concrete offer. -/
theorem C4_witness :
    (createLoanOfferPayload c4Config "alice" "2025-10-11" c4Offer "lock-1").lockedCCCollateral
        = some "lock-1" ∧
    (createLoanOfferPayload c4Config "alice" "2025-10-11" c4Offer "lock-1").lockedUSDCPrincipal
        = none :=
  (C4_offer_lock_fields c4Config "alice" "2025-10-11" "lock-1" c4Offer).1 rfl

-- ============================================================================
-- C5: default claim maturity check and best-effort collateral claim
-- ============================================================================

/-- C5: when the claim date (the override when given, otherwise today)
precedes the maturity date of the loan, defaultLoan fails with the validation
error and emits no external call at all; when the claim date does not precede
the maturity date and the ledger default exercise succeeds, its result is
returned for every outcome of the escrow collateral claim, and the
ClaimDefaultHybrid exercise is among the emitted calls. -/
theorem C5_default_maturity (partyId loanContractId : String)
    (overrideClaimDate : Option String) (today : String) (loans : List ActiveLoan)
    (loan : ActiveLoan) (submitResult : Except (Nat × String) String)
    (escrowClaim : Except String Unit) (r : String)
    (hfind : loans.find? (fun l => l.contractId == loanContractId) = some loan) :
    (jsStrLt (overrideClaimDate.getD today) loan.maturityDate = true →
      defaultLoan partyId loanContractId overrideClaimDate today loans
          submitResult escrowClaim
        = ⟨.error (.notMatured loan.maturityDate (overrideClaimDate.getD today)),
           [], []⟩) ∧
    (jsStrLt (overrideClaimDate.getD today) loan.maturityDate = false →
      submitResult = .ok r →
      (defaultLoan partyId loanContractId overrideClaimDate today loans
          submitResult escrowClaim).result = .ok r ∧
      LedgerCall.exercise "ActiveLoanHybrid:ActiveLoanHybrid" loanContractId
          "ClaimDefaultHybrid" [partyId, loan.borrower]
          [overrideClaimDate.getD today]
        ∈ (defaultLoan partyId loanContractId overrideClaimDate today loans
          submitResult escrowClaim).calls) := by
  constructor
  · intro hlt
    simp [defaultLoan, hfind, hlt]
  · intro hlt hsub
    subst hsub
    by_cases hcc : loan.ccCollateralReference = ""
    · simp [defaultLoan, hfind, hlt, hcc]
    · cases escrowClaim with
      | ok u => simp [defaultLoan, hfind, hlt, hcc]
      | error e => simp [defaultLoan, hfind, hlt, hcc]

/-- Active loan of the C5 witness, maturing at the end of 2025. -/
def c5Loan : ActiveLoan :=
  ⟨"loan-1", "bob", "alice", "escrow-1", 1000, 5000, "5.5", "2025-12-31",
   "2025-06-30", "0.125", "USDC"⟩

/-- C5 witness: a default claim dated before maturity is rejected with the
validation error and no call is emitted, even though the ledger and the
escrow service would have answered. -/
theorem C5_witness :
    defaultLoan "alice" "loan-1" (some "2025-10-10") "2025-10-11" [c5Loan]
        (.ok "default-result") (.error "wallet down")
      = ⟨.error (.notMatured "2025-12-31" "2025-10-10"), [], []⟩ :=
  (C5_default_maturity "alice" "loan-1" (some "2025-10-10") "2025-10-11"
    [c5Loan] c5Loan (.ok "default-result") (.error "wallet down")
    "default-result" (by decide)).1 (by decide)

-- ============================================================================
-- C6: best-effort collateral unlock after repay
-- ============================================================================

/-- C6: the outcome of repayLoan never depends on the outcome of the
native-coin collateral unlock: with the repay submission succeeding with r,
the result for a failing unlock equals the result for a succeeding unlock,
any successful result is exactly r, and the unlock failure is at most
logged. -/
theorem C6_repay_unlock_best_effort (partyId loanContractId : String)
    (repaymentAmount : ℚ) (loans : List ActiveLoan)
    (holdings : List AssetHolding) (today : String) (splitCid : Option String)
    (r e : String) :
    ((repayLoan partyId loanContractId repaymentAmount loans holdings today
        splitCid (.ok r) (.error e)).result
      = (repayLoan partyId loanContractId repaymentAmount loans holdings today
        splitCid (.ok r) (.ok ())).result) ∧
    (∀ res, (repayLoan partyId loanContractId repaymentAmount loans holdings
        today splitCid (.ok r) (.error e)).result = .ok res → res = r) ∧
    ((repayLoan partyId loanContractId repaymentAmount loans holdings today
        splitCid (.ok r) (.error e)).loggedErrors = [] ∨
     (repayLoan partyId loanContractId repaymentAmount loans holdings today
        splitCid (.ok r) (.error e)).loggedErrors = [e]) := by
  rcases hfind : loans.find? (fun l => l.contractId == loanContractId) with _ | loan
  · simp [repayLoan, hfind]
  · rcases halloc : repayAllocate partyId repaymentAmount holdings with _ | h | h | ⟨n, a⟩
    · simp [repayLoan, hfind, halloc]
    · by_cases hcc : loan.ccCollateralReference = "" <;>
        simp [repayLoan, hfind, halloc, repayLoanSubmit, hcc]
    · rcases splitCid with _ | cid
      · simp [repayLoan, hfind, halloc]
      · by_cases hcc : loan.ccCollateralReference = "" <;>
          simp [repayLoan, hfind, halloc, repayLoanSubmit, hcc]
    · simp [repayLoan, hfind, halloc]

/-- Active loan of the C6 witness. -/
def c6Loan : ActiveLoan :=
  ⟨"loan-2", "bob", "alice", "escrow-2", 1000, 5000, "5.5", "2025-12-31",
   "2025-06-30", "0.125", "USDC"⟩

/-- USDC holding of the C6 witness, exactly covering the repayment. -/
def c6Holding : AssetHolding :=
  ⟨"cid-c6", "issuer", "bob", "custodian", "USDC", 1000⟩

/-- C6 witness: a concrete repayment where the ledger repay succeeds and the
escrow unlock fails still returns the successful repay result. -/
theorem C6_witness :
    (repayLoan "bob" "loan-2" 1000 [c6Loan] [c6Holding] "2025-10-11" none
        (.ok "repay-ok") (.error "wallet down")).result = .ok "repay-ok" ∧
    "repay-ok" = "repay-ok" := by
  have habs : |(1000 : ℚ) - 1000| < 1/100 := by
    rw [sub_self, abs_zero]
    norm_num
  have heval : (repayLoan "bob" "loan-2" 1000 [c6Loan] [c6Holding] "2025-10-11"
      none (.ok "repay-ok") (.error "wallet down")).result = .ok "repay-ok" := by
    simp [repayLoan, repayLoanSubmit, repayAllocate, usdcOf, c6Loan, c6Holding,
      List.find?, List.filter, decide_eq_true habs]
  exact ⟨heval,
    (C6_repay_unlock_best_effort "bob" "loan-2" 1000 [c6Loan] [c6Holding]
      "2025-10-11" none "repay-ok" "wallet down").2.1 "repay-ok" heval⟩

-- ============================================================================
-- C7: token cache behavior
-- ============================================================================

/-- C7: a call while the cached entry is still valid returns the cached token
without an exchange; on a cache miss a successful exchange caches the token
with expiry 60 seconds before the declared expires_in; a second call before
that expiry returns the same token value and performs no second exchange; a
call at or after the cached expiry performs a new exchange and caches the new
token with the same expiry formula. -/
theorem C7_token_cache (cache : TokenCache) (audience : String) (now₀ now₁ : Int)
    (resp resp₂ : TokenResponse) :
    (∀ c, cache.lookup audience = some c → now₀ < c.expiresAt →
      getAuth0Token cache audience now₀ resp = ⟨.ok c.token, cache, false⟩) ∧
    (cache.lookup audience = none → resp.ok = true →
      getAuth0Token cache audience now₀ resp
        = ⟨.ok resp.accessToken,
           setCache cache audience
             ⟨resp.accessToken, now₀ + (resp.expiresIn - 60) * 1000⟩, true⟩) ∧
    (cache.lookup audience = none → resp.ok = true →
      now₁ < now₀ + (resp.expiresIn - 60) * 1000 →
      getAuth0Token (getAuth0Token cache audience now₀ resp).cache audience
          now₁ resp₂
        = ⟨.ok resp.accessToken, (getAuth0Token cache audience now₀ resp).cache,
           false⟩) ∧
    (∀ c, cache.lookup audience = some c → c.expiresAt ≤ now₁ → resp₂.ok = true →
      getAuth0Token cache audience now₁ resp₂
        = ⟨.ok resp₂.accessToken,
           setCache cache audience
             ⟨resp₂.accessToken, now₁ + (resp₂.expiresIn - 60) * 1000⟩, true⟩) := by
  refine ⟨?_, ?_, ?_, ?_⟩
  · intro c hc hlt
    simp [getAuth0Token, hc, hlt]
  · intro hc hok
    simp [getAuth0Token, hc, fetchAndCacheToken, hok]
  · intro hc hok hlt
    have h1 : (getAuth0Token cache audience now₀ resp).cache
        = setCache cache audience
            ⟨resp.accessToken, now₀ + (resp.expiresIn - 60) * 1000⟩ := by
      simp [getAuth0Token, hc, fetchAndCacheToken, hok]
    rw [h1]
    have h2 := lookup_setCache cache audience
      ⟨resp.accessToken, now₀ + (resp.expiresIn - 60) * 1000⟩
    simp [getAuth0Token, h2, hlt]
  · intro c hc hle hok
    have hnlt : ¬ (c.expiresAt > now₁) := not_lt.mpr hle
    simp [getAuth0Token, hc, hnlt, fetchAndCacheToken, hok]

/-- Exchange response of the first C7 witness call. -/
def c7Resp : TokenResponse := ⟨true, 200, "", some "tok-1", 3600⟩

/-- Exchange response the second C7 witness call would have received. -/
def c7Resp₂ : TokenResponse := ⟨true, 200, "", some "tok-2", 3600⟩

/-- C7 witness: after a first exchange at time 0, a second call at time
1000000 (before the cached expiry 3540000) returns the first token again
without a new exchange, even though the endpoint would have answered with a
different token. -/
theorem C7_witness :
    getAuth0Token (getAuth0Token [] "aud" 0 c7Resp).cache "aud" 1000000 c7Resp₂
      = ⟨.ok (some "tok-1"), (getAuth0Token [] "aud" 0 c7Resp).cache, false⟩ :=
  (C7_token_cache [] "aud" 0 1000000 c7Resp c7Resp₂).2.2.1 rfl rfl (by decide)

-- ============================================================================
-- C8: auth-token error condition
-- ============================================================================

/-- C8 (corrected): on a cache miss, getAuth0Token raises the auth-token error
exactly when the exchange response is non-success; a success response is
never an error, even when it omits access_token, in which case the absent
token is cached and returned. -/
theorem C8_auth_error_iff (cache : TokenCache) (audience : String) (now : Int)
    (resp : TokenResponse) (hmiss : cache.lookup audience = none) :
    ((getAuth0Token cache audience now resp).result
        = .error (.tokenRequestFailed resp.status resp.body) ↔ resp.ok = false) ∧
    (resp.ok = true →
      (getAuth0Token cache audience now resp).result = .ok resp.accessToken) := by
  constructor
  · constructor
    · intro h
      by_cases hok : resp.ok = true
      · simp [getAuth0Token, hmiss, fetchAndCacheToken, hok] at h
      · simpa using hok
    · intro hok
      simp [getAuth0Token, hmiss, fetchAndCacheToken, hok]
  · intro hok
    simp [getAuth0Token, hmiss, fetchAndCacheToken, hok]

/-- A success response carrying no access_token (C8). -/
def c8Resp : TokenResponse := ⟨true, 200, "", none, 3600⟩

/-- C8 counterexample: on a success response that omits access_token, the
claim requires the auth-token error to be raised, but the code returns the
absent token and caches the entry with it. -/
theorem C8_counterexample :
    c8Resp.ok = true ∧ c8Resp.accessToken = none ∧
    (getAuth0Token [] "aud" 0 c8Resp).result = .ok none ∧
    (getAuth0Token [] "aud" 0 c8Resp).cache = [("aud", ⟨none, 3540000⟩)] :=
  ⟨rfl, rfl, rfl, rfl⟩

/-- C8 witness: the success case of the corrected claim at the concrete
token-less success response. -/
theorem C8_witness :
    (getAuth0Token [] "aud" 0 c8Resp).result = .ok none :=
  (C8_auth_error_iff [] "aud" 0 c8Resp rfl).2 rfl

-- ============================================================================
-- C9: transaction stream window
-- ============================================================================

/-- C9 (corrected): the stream request begins exclusive at the given offset,
defaulting to 0; every normalized event is one of the three event kinds; the
returned list is the FIRST at-most-50 decoded transactions in stream order
(the earliest after the offset, so the whole stream is the returned window
followed by the dropped remainder, and streams of at most 50 transactions are
returned whole); byId and contractHistory results are drawn from this same
window. -/
theorem C9_stream_window (items : List RawItem) (txId cid : String) :
    buildBeginExclusive none = 0 ∧
    (∀ o : Int, buildBeginExclusive (some o) = o) ∧
    (∃ rest, (items.map extractTransaction).filterMap decodeTransaction
      = getTransactionStream items ++ rest) ∧
    (getTransactionStream items).length ≤ 50 ∧
    (((items.map extractTransaction).filterMap decodeTransaction).length ≤ 50 →
      getTransactionStream items
        = (items.map extractTransaction).filterMap decodeTransaction) ∧
    (∀ e : RawEvent, (normalizeEvent e).eventType = .created ∨
      (normalizeEvent e).eventType = .archived ∨
      (normalizeEvent e).eventType = .exercised) ∧
    (∀ tx, getTransactionById items txId = some tx →
      tx ∈ getTransactionStream items ∧ tx.transactionId = txId) ∧
    (∀ tx ∈ getContractHistory items cid,
      tx ∈ getTransactionStream items ∧
      tx.events.any (fun e => e.contractId == cid) = true) := by
  refine ⟨rfl, fun o => rfl,
    ⟨_, (List.take_append_drop 50
      ((items.map extractTransaction).filterMap decodeTransaction)).symm⟩,
    ?_, ?_, ?_, ?_, ?_⟩
  · simp only [getTransactionStream, List.length_take]
    exact min_le_left _ _
  · intro hlen
    simp only [getTransactionStream]
    exact List.take_of_length_le hlen
  · intro e
    cases hc : e.createdEvent <;> cases hx : e.exercisedEvent <;>
      cases ha : e.archivedEvent <;> simp [normalizeEvent, hc, hx, ha]
  · intro tx h
    simp only [getTransactionById] at h
    exact ⟨List.mem_of_find?_eq_some h, by simpa using List.find?_some h⟩
  · intro tx h
    simp only [getContractHistory] at h
    exact ⟨(List.mem_filter.mp h).1, by simpa using (List.mem_filter.mp h).2⟩

/-- One bare stream item with identifier indexed by i (C9). -/
def mkStreamItem (i : Nat) : RawItem :=
  .bare ⟨some ("t" ++ toString i), none, "2025-01-01T00:00:00Z", Int.ofNat i, []⟩

/-- A stream of 51 decodable transactions, t0 oldest through t50 newest (C9). -/
def streamItems51 : List RawItem := (List.range 51).map mkStreamItem

/-- C9 counterexample: on a stream of 51 transactions, the code keeps the
first 50 in stream order and drops the newest transaction t50 while keeping
the oldest t0, so the returned window is not the 50 most recent
transactions. -/
theorem C9_counterexample :
    (getTransactionStream streamItems51).length = 50 ∧
    "t50" ∉ (getTransactionStream streamItems51).map (fun tx => tx.transactionId) ∧
    "t0" ∈ (getTransactionStream streamItems51).map (fun tx => tx.transactionId) := by
  decide

/-- A two-item stream for the C9 witness. -/
def c9Items : List RawItem :=
  [.bare ⟨some "t0", none, "2025-01-01T00:00:00Z", 1, []⟩,
   .transactionField ⟨none, some "t1", "2025-01-02T00:00:00Z", 2, []⟩]

/-- C9 witness: a stream of at most 50 transactions is returned whole. -/
theorem C9_witness :
    getTransactionStream c9Items
      = (c9Items.map extractTransaction).filterMap decodeTransaction :=
  (C9_stream_window c9Items "t0" "c").2.2.2.2.1 (by decide)

-- ============================================================================
-- C10: cent tolerance of the repay exact match
-- ============================================================================

/-- USDC holding half a cent above the requested repayment (C10). -/
def c10Holding : AssetHolding :=
  ⟨"cid-c10", "issuer", "bob", "custodian", "USDC", 100 + 1/200⟩

/-- C10: the repay path treats a holding as an exact match whenever its amount
is within 0.01 of the repayment amount and then uses it directly (the first
such holding is used without a split), while the lock and transfer path
requires the amount to equal the target exactly; concretely, a repayment of
100 against a single holding of 100.005 uses that holding directly although
its amount differs from the requested amount. -/
theorem C10_repay_cent_tolerance :
    (∀ (partyId : String) (amount : ℚ) (holdings : List AssetHolding)
        (h : AssetHolding),
      repayAllocate partyId amount holdings = .useExisting h →
        |h.amount - amount| < 1/100) ∧
    (∀ (partyId : String) (amount : ℚ) (holdings : List AssetHolding)
        (h : AssetHolding),
      (usdcOf partyId holdings).find?
          (fun h' => decide (|h'.amount - amount| < 1/100)) = some h →
        repayAllocate partyId amount holdings = .useExisting h) ∧
    (∀ (partyId : String) (amount : ℚ) (holdings : List AssetHolding)
        (h : AssetHolding),
      allocateExact partyId amount holdings = .useExisting h →
        h.amount = amount) ∧
    (repayAllocate "bob" 100 [c10Holding] = .useExisting c10Holding ∧
      c10Holding.amount ≠ 100) := by
  refine ⟨?_, ?_, ?_, ?_, ?_⟩
  · intro p amt hs h heq
    unfold repayAllocate at heq
    by_cases hemp : (usdcOf p hs).isEmpty = true
    · rw [if_pos hemp] at heq
      exact absurd heq (by simp)
    · rw [if_neg hemp] at heq
      rcases hf : (usdcOf p hs).find?
          (fun h' => decide (|h'.amount - amt| < 1/100)) with _ | h'
      · rw [hf] at heq
        rcases hg : (usdcOf p hs).find?
            (fun h' => decide (amt ≤ h'.amount)) with _ | h''
        · rw [hg] at heq
          exact absurd heq (by simp)
        · rw [hg] at heq
          exact absurd heq (by simp)
      · rw [hf] at heq
        have hh : h' = h := by simpa using heq
        subst hh
        simpa using List.find?_some hf
  · intro p amt hs h hf
    have hne : ¬ (usdcOf p hs).isEmpty = true := by
      intro hemp
      rw [List.isEmpty_iff.mp hemp] at hf
      simp at hf
    unfold repayAllocate
    rw [if_neg hne, hf]
  · intro p amt hs h heq
    unfold allocateExact at heq
    by_cases hemp : (usdcOf p hs).isEmpty = true
    · rw [if_pos hemp] at heq
      exact absurd heq (by simp)
    · rw [if_neg hemp] at heq
      rcases hf : (usdcOf p hs).find?
          (fun h' => decide (h'.amount = amt)) with _ | h'
      · rw [hf] at heq
        rcases hg : (usdcOf p hs).find?
            (fun h' => decide (amt ≤ h'.amount)) with _ | h''
        · rw [hg] at heq
          exact absurd heq (by simp)
        · rw [hg] at heq
          exact absurd heq (by simp)
      · rw [hf] at heq
        have hh : h' = h := by simpa using heq
        subst hh
        simpa using List.find?_some hf
  · have hfind : (usdcOf "bob" [c10Holding]).find?
        (fun h' => decide (|h'.amount - 100| < 1/100)) = some c10Holding := by
      have habs : |c10Holding.amount - 100| < 1/100 := by
        rw [show c10Holding.amount - 100 = 1/200 from by
              rw [show c10Holding.amount = 100 + 1/200 from rfl]; ring,
            abs_of_pos (show (0 : ℚ) < 1/200 from by norm_num)]
        norm_num
      have husdc : usdcOf "bob" [c10Holding] = [c10Holding] := by
        simp [usdcOf, c10Holding]
      rw [husdc]
      exact List.find?_cons_of_pos _ (decide_eq_true habs)
    have hne : ¬ (usdcOf "bob" [c10Holding]).isEmpty = true := by
      intro hemp
      rw [List.isEmpty_iff.mp hemp] at hfind
      simp at hfind
    unfold repayAllocate
    rw [if_neg hne, hfind]
  · rw [show c10Holding.amount = 100 + 1/200 from rfl]
    norm_num

/-- C10 witness: the tolerance bound applied at the concrete half-cent
holding, with the hypothesis discharged by the concrete conjunct of the same
theorem. -/
theorem C10_witness : |c10Holding.amount - 100| < 1/100 :=
  C10_repay_cent_tolerance.1 "bob" 100 [c10Holding] c10Holding
    C10_repay_cent_tolerance.2.2.2.1

end Rhein
